import Mathlib

/-!
Verification of `src/validate_toml.py` (gen-image-factory).

The script brings in the `tomllib` and `sys` modules and then runs, at
module top level:

  try:
      with open(".gemini/commands/refactor/surgical.toml", "rb") as f:
          tomllib.load(f)
      print("TOML is valid")
  except Exception as e:
      print(f"TOML error: \x7be\x7d")

We embed one invocation of the script as a pure function from a `World`
(the outcome of opening/reading the fixed file, the behaviour of the
decoder, and the ignored process inputs argv/env) to an `Outcome`
(an ordered trace of externally visible effects plus the exit status).
Python's exception hierarchy is modelled just finely enough for the
script: an exception either derives from `Exception` (caught by the
`except Exception` clause) or only from `BaseException`
(`KeyboardInterrupt`, `SystemExit`: not caught).
-/

/-- A raised Python exception, as relevant to `except Exception as e`:
`exc m` is an exception in the `Exception` subtree whose `str` is `m`
(`OSError`, `TOMLDecodeError`, `UnicodeDecodeError`, ...); `base m` is an
exception deriving only from `BaseException` (`KeyboardInterrupt`,
`SystemExit`), which the handler does not catch. -/
inductive PyExc where
  | exc (msg : String)
  | base (msg : String)
deriving DecidableEq, Repr

/-- The externally visible effects one invocation can perform.  `openF` /
`closeF` are the acquisition and release of the read handle on the fixed
path, `console s` is `print(s)` writing the line `s` to standard output,
and `write` is any mutation of the file system — included in the
vocabulary so that its absence from every trace is a theorem, not a
modelling artifact. -/
inductive Effect where
  | openF
  | closeF
  | console (s : String)
  | write
deriving DecidableEq, Repr

/-- The environment of one invocation.  `openR` is the result of
`open(".gemini/commands/refactor/surgical.toml", "rb")` together with the
bytes the decoder will read through the handle: `.ok bytes` when the file
exists and is readable with contents `bytes`, `.error e` when opening
raises `e`.  `decode` is the behaviour of `tomllib.load` on those bytes
(`.ok ()` on a valid document, `.error e` when it raises).  `argv` and
`env` are the process arguments and environment, which the script never
consults. -/
structure World where
  openR : Except PyExc (List Nat)
  decode : List Nat → Except PyExc Unit
  argv : List String
  env : List (String × String)

/-- The observable outcome of one invocation: the ordered effect trace and
the exit status — `.ok 0` for a normal fall-off-the-end termination,
`.error e` when the uncaught exception `e` propagates out of the module. -/
structure Outcome where
  trace : List Effect
  exit : Except PyExc Nat
deriving Repr

/-- The `except Exception as e` clause (lines 8-9): an `Exception`-subtree
exception is caught and printed as `TOML error: <str(e)>` and the process
then exits 0; a `BaseException`-only exception is not caught and
propagates.  `tr` is the trace accumulated before the exception reached
the handler. -/
def handle (tr : List Effect) (e : PyExc) : Outcome :=
  match e with
  | .exc m => ⟨tr ++ [.console ("TOML error: " ++ m)], .ok 0⟩
  | .base m => ⟨tr, .error (.base m)⟩

/-- One invocation of the module (lines 4-9).  If `open` raises, no handle
was acquired and the exception goes to the handler.  Otherwise the `with`
block runs `tomllib.load(f)`; the `with` statement closes the handle on
every way out of the block — normal completion and both kinds of raised
exception — after which either `print("TOML is valid")` runs (line 7,
after the block) or the exception reaches the handler. -/
def run (w : World) : Outcome :=
  match w.openR with
  | .error e => handle [] e
  | .ok bytes =>
    match w.decode bytes with
    | .ok _ => ⟨[.openF, .closeF, .console "TOML is valid"], .ok 0⟩
    | .error e => handle [.openF, .closeF] e

/-- The lines an outcome printed to standard output, in order. -/
def stdoutOf (o : Outcome) : List String :=
  o.trace.filterMap (fun ef => match ef with | .console s => some s | _ => none)

/-!
A model of the decoder.  The decoder the script calls — CPython's
`tomllib` — is standard-library code and is not part of `src/`; the
claims about what it accepts (the empty document) and what its errors
look like (a non-empty message) are settled against the executable model
below, which follows the specification's description of the format.
-/

/-- A decode error of the model decoder; `message` gives the
human-readable text the script would receive as `str(e)`. -/
inductive TomlErr where
  | invalidUtf8
  | invalidCr
  | invalidStatement
  | expectedEq
  | unterminatedString
  | invalidValue
  | expectedNewline
deriving DecidableEq, Repr

/-- The decoder-supplied message of each model error. -/
def TomlErr.message : TomlErr → String
  | .invalidUtf8 => "invalid UTF-8 byte sequence"
  | .invalidCr => "carriage return without following line feed"
  | .invalidStatement => "Invalid statement"
  | .expectedEq => "Expected key-value separator = after a key"
  | .unterminatedString => "Unterminated string"
  | .invalidValue => "Invalid value"
  | .expectedNewline => "Expected newline or end of document after a key-value pair"

/-- Is `c` a UTF-8 continuation byte (`0x80 ≤ c ≤ 0xBF`)? -/
def utf8Cont (c : Nat) : Bool := 0x80 ≤ c && c ≤ 0xBF

/-- Strict UTF-8 decoding of a byte sequence into code points: rejects
truncated sequences, stray continuation bytes, overlong encodings,
surrogate code points and values above U+10FFFF — the precondition
`tomllib` imposes before parsing (it raises `UnicodeDecodeError`
otherwise). -/
def utf8Decode : List Nat → Option (List Nat)
  | [] => some []
  | b :: bs =>
    if b < 0x80 then (utf8Decode bs).map (b :: ·)
    else if 0xC2 ≤ b && b ≤ 0xDF then
      match bs with
      | c :: bs₁ =>
        if utf8Cont c then
          (utf8Decode bs₁).map ((b % 0x20 * 0x40 + c % 0x40) :: ·)
        else none
      | [] => none
    else if 0xE0 ≤ b && b ≤ 0xEF then
      match bs with
      | c1 :: c2 :: bs₁ =>
        if utf8Cont c1 && utf8Cont c2 &&
            (b ≠ 0xE0 || 0xA0 ≤ c1) && (b ≠ 0xED || c1 ≤ 0x9F) then
          (utf8Decode bs₁).map
            ((b % 0x10 * 0x1000 + c1 % 0x40 * 0x40 + c2 % 0x40) :: ·)
        else none
      | _ => none
    else if 0xF0 ≤ b && b ≤ 0xF4 then
      match bs with
      | c1 :: c2 :: c3 :: bs₁ =>
        if utf8Cont c1 && utf8Cont c2 && utf8Cont c3 &&
            (b ≠ 0xF0 || 0x90 ≤ c1) && (b ≠ 0xF4 || c1 ≤ 0x8F) then
          (utf8Decode bs₁).map
            ((b % 8 * 0x40000 + c1 % 0x40 * 0x1000 + c2 % 0x40 * 0x40 + c3 % 0x40) :: ·)
        else none
      | _ => none
    else none

/-- Normalise newlines in a code-point stream: each CR LF pair becomes a
single LF; a carriage return not followed by a line feed is not valid
TOML and is rejected. -/
def normNewlines : List Nat → Except TomlErr (List Nat)
  | [] => .ok []
  | 13 :: 10 :: rest => (normNewlines rest).map (10 :: ·)
  | 13 :: _ => .error .invalidCr
  | c :: rest => (normNewlines rest).map (c :: ·)

/-- Split a code-point stream into its LF-separated lines. -/
def splitLines : List Nat → List (List Nat)
  | [] => [[]]
  | 10 :: rest => [] :: splitLines rest
  | c :: rest =>
    match splitLines rest with
    | [] => [[c]]
    | l :: ls => (c :: l) :: ls

/-- TOML whitespace: space or horizontal tab. -/
def isWs (c : Nat) : Bool := c = 0x20 || c = 0x09

/-- A character of a bare key: ASCII letter, digit, `_` or `-`. -/
def isBareKeyChar (c : Nat) : Bool :=
  (0x41 ≤ c && c ≤ 0x5A) || (0x61 ≤ c && c ≤ 0x7A) ||
    (0x30 ≤ c && c ≤ 0x39) || c = 0x5F || c = 0x2D

/-- An ASCII decimal digit. -/
def isDigit (c : Nat) : Bool := 0x30 ≤ c && c ≤ 0x39

/-- After a complete value, the rest of the line may hold only whitespace
and an optional `#` comment. -/
def endCheck (l : List Nat) : Except TomlErr Unit :=
  match l.dropWhile isWs with
  | [] => .ok ()
  | 35 :: _ => .ok ()
  | _ => .error .expectedNewline

/-- Consume the rest of a basic string, the opening `"` already read: a
closing `"` ends it, a backslash escapes the next character, reaching the
end of the line first is an unterminated string. -/
def stringRest : List Nat → Except TomlErr (List Nat)
  | [] => .error .unterminatedString
  | 34 :: rest => .ok rest
  | 92 :: _ :: rest => stringRest rest
  | 92 :: [] => .error .unterminatedString
  | _ :: rest => stringRest rest

/-- Skip a non-empty run of decimal digits and check the line ends. -/
def intRest (l : List Nat) : Except TomlErr Unit :=
  match l.takeWhile isDigit with
  | [] => .error .invalidValue
  | _ :: _ => endCheck (l.dropWhile isDigit)

/-- Parse the value of a key-value pair (whitespace already skipped): a
basic string, an optionally signed decimal integer, or a boolean. -/
def parseValue : List Nat → Except TomlErr Unit
  | 34 :: rest =>
    match stringRest rest with
    | .ok r => endCheck r
    | .error e => .error e
  | 43 :: rest => intRest rest
  | 45 :: rest => intRest rest
  | l =>
    if l.take 4 = [116, 114, 117, 101] then endCheck (l.drop 4)
    else if l.take 5 = [102, 97, 108, 115, 101] then endCheck (l.drop 5)
    else
      match l with
      | c :: rest => if isDigit c then intRest (c :: rest) else .error .invalidValue
      | [] => .error .invalidValue

/-- After a bare key, require the `=` separator and then a value. -/
def afterKey (l : List Nat) : Except TomlErr Unit :=
  match l.dropWhile isWs with
  | 61 :: rest => parseValue (rest.dropWhile isWs)
  | _ => .error .expectedEq

/-- Parse one line: blank lines and `#` comments are valid, a line
starting a bare key must be a key-value pair, anything else is an invalid
statement. -/
def parseLine (l : List Nat) : Except TomlErr Unit :=
  match l.dropWhile isWs with
  | [] => .ok ()
  | c :: rest =>
    if c = 35 then .ok ()
    else if isBareKeyChar c then afterKey ((c :: rest).dropWhile isBareKeyChar)
    else .error .invalidStatement

/-- Parse every line of the document, stopping at the first error. -/
def parseLinesAll : List (List Nat) → Except TomlErr Unit
  | [] => .ok ()
  | l :: ls =>
    match parseLine l with
    | .ok _ => parseLinesAll ls
    | .error e => .error e

/-- Modelled from the spec: the decoder `tomllib.load` is CPython
standard-library code absent from `src/`.  Following the specification —
"key/value pairs, tables, arrays — standard TOML grammar", an empty file
"is valid TOML (no keys)", and errors carry a "decoder-supplied message"
— this executable model decodes the fragment of TOML the specification
exercises: UTF-8 validation, blank lines and comments, and
`bare-key = value` pairs with basic-string, integer and boolean values.
It is a fragment (tables, arrays, dotted keys, floats, dates and
duplicate-key detection are not modelled), but it is exact on the inputs
the claims name: the empty document and the malformed examples.  A decode
failure is raised as an `Exception`-subtree error whose `str` is the
error's message. -/
def tomllib_load (bytes : List Nat) : Except PyExc Unit :=
  match utf8Decode bytes with
  | none => .error (.exc TomlErr.invalidUtf8.message)
  | some cps =>
    match normNewlines cps with
    | .error te => .error (.exc te.message)
    | .ok cps₁ =>
      match parseLinesAll (splitLines cps₁) with
      | .ok _ => .ok ()
      | .error te => .error (.exc te.message)

/-!  Sample inputs taken from the specification's test properties. -/

/-- The bytes of the valid document `key = 1\n`. -/
def validBytes : List Nat := [107, 101, 121, 32, 61, 32, 49, 10]

/-- The bytes of the malformed example from the specification,
`key = "unterminated` (an unterminated basic string). -/
def unterminatedBytes : List Nat :=
  [107, 101, 121, 32, 61, 32, 34, 117, 110, 116, 101, 114, 109, 105, 110, 97, 116, 101, 100]

/-- A byte sequence that is not valid UTF-8 (a lone `0xFF`). -/
def nonUtf8Bytes : List Nat := [255]

/-- Every error the model decoder raises is an `Exception`-subtree error
carrying the message of some `TomlErr`. -/
theorem tomllib_err_shape (bytes : List Nat) (e : PyExc)
    (h : tomllib_load bytes = .error e) : ∃ te : TomlErr, e = .exc te.message := by
  unfold tomllib_load at h
  split at h
  · exact ⟨.invalidUtf8, (Except.error.inj h).symm⟩
  · split at h
    · exact ⟨_, (Except.error.inj h).symm⟩
    · split at h
      · exact absurd h (by simp)
      · exact ⟨_, (Except.error.inj h).symm⟩

/-- Claim C1: when the fixed file opens and reads successfully and its
contents decode as valid TOML, the invocation prints exactly the line
`TOML is valid` to standard output and exits with status 0. -/
theorem validate_toml_valid_prints_valid (w : World) (bytes : List Nat)
    (hopen : w.openR = .ok bytes) (hdec : w.decode bytes = .ok ()) :
    stdoutOf (run w) = ["TOML is valid"] ∧ (run w).exit = .ok 0 := by
  simp [run, hopen, hdec, stdoutOf]

theorem validate_toml_valid_prints_valid_witness :
    stdoutOf (run ⟨.ok validBytes, tomllib_load, [], []⟩) = ["TOML is valid"] ∧
      (run ⟨.ok validBytes, tomllib_load, [], []⟩).exit = .ok 0 :=
  validate_toml_valid_prints_valid ⟨.ok validBytes, tomllib_load, [], []⟩ validBytes rfl rfl

/-- Claim C2: when opening/reading the fixed file raises an
`Exception`-subtree exception, or decoding its bytes does, the failure is
caught, printed to standard output as `TOML error: <message>`, and the
process exits with status 0 — the failure is not propagated. -/
theorem validate_toml_exception_reported_not_raised (w : World) (m : String)
    (h : w.openR = .error (.exc m) ∨
      ∃ bytes, w.openR = .ok bytes ∧ w.decode bytes = .error (.exc m)) :
    stdoutOf (run w) = ["TOML error: " ++ m] ∧ (run w).exit = .ok 0 := by
  rcases h with h | ⟨bytes, h1, h2⟩
  · simp [run, h, handle, stdoutOf]
  · simp [run, h1, h2, handle, stdoutOf]

theorem validate_toml_exception_reported_not_raised_witness :
    stdoutOf (run ⟨.error (.exc "No such file or directory"), tomllib_load, [], []⟩) =
        ["TOML error: " ++ "No such file or directory"] ∧
      (run ⟨.error (.exc "No such file or directory"), tomllib_load, [], []⟩).exit = .ok 0 :=
  validate_toml_exception_reported_not_raised
    ⟨.error (.exc "No such file or directory"), tomllib_load, [], []⟩
    "No such file or directory" (Or.inl rfl)

/-- Claim C3 (counterexample): the claim quantifies over every invocation,
but an invocation in which a `BaseException`-only exception
(`KeyboardInterrupt`) arrives during decoding prints zero lines to
standard output, not one. -/
theorem validate_toml_interrupt_zero_lines :
    stdoutOf (run ⟨.ok [], fun _ => .error (.base "KeyboardInterrupt"), [], []⟩) = [] ∧
      ¬ ∃ line,
        stdoutOf (run ⟨.ok [], fun _ => .error (.base "KeyboardInterrupt"), [], []⟩) =
          [line] :=
  ⟨rfl, fun ⟨_, h⟩ => List.noConfusion h⟩

/-- Claim C3 (amended): for every invocation in which no
`BaseException`-only exception is raised — so every exception that occurs
is in the `Exception` subtree — standard output is exactly one line, and
that line is either `TOML is valid` or `TOML error: <message>`. -/
theorem validate_toml_single_line_output (w : World)
    (hopen : ∀ m, w.openR ≠ .error (.base m))
    (hdec : ∀ bytes m, w.openR = .ok bytes → w.decode bytes ≠ .error (.base m)) :
    ∃ line, stdoutOf (run w) = [line] ∧
      (line = "TOML is valid" ∨ ∃ m, line = "TOML error: " ++ m) := by
  rcases ho : w.openR with (m | m) | bytes
  · refine ⟨"TOML error: " ++ m, ?_, Or.inr ⟨m, rfl⟩⟩
    simp [run, ho, handle, stdoutOf]
  · exact absurd ho (hopen m)
  · rcases hd : w.decode bytes with (m | m) | u
    · refine ⟨"TOML error: " ++ m, ?_, Or.inr ⟨m, rfl⟩⟩
      simp [run, ho, hd, handle, stdoutOf]
    · exact absurd hd (hdec bytes m ho)
    · refine ⟨"TOML is valid", ?_, Or.inl rfl⟩
      simp [run, ho, hd, stdoutOf]

theorem validate_toml_single_line_output_witness :
    ∃ line, stdoutOf (run ⟨.ok [], tomllib_load, [], []⟩) = [line] ∧
      (line = "TOML is valid" ∨ ∃ m, line = "TOML error: " ++ m) :=
  validate_toml_single_line_output ⟨.ok [], tomllib_load, [], []⟩
    (fun _ h => Except.noConfusion h)
    (fun bytes m hb h => by
      injection hb with h2
      subst h2
      exact Except.noConfusion h)

/-- Claim C4: a decode failure of the (spec-modelled) decoder makes the
invocation print a line that begins with `TOML error: ` followed by a
non-empty message, and a failing open that raises an `Exception`-subtree
exception (the missing-file case raises `FileNotFoundError`, an
`OSError`) makes it print `TOML error: ` followed by that exception's
message; in both cases the exit status is 0. -/
theorem validate_toml_error_line_format (w : World) :
    (∀ bytes e, w.openR = .ok bytes → w.decode = tomllib_load →
        tomllib_load bytes = .error e →
        ∃ m, m ≠ "" ∧ stdoutOf (run w) = ["TOML error: " ++ m] ∧
          (run w).exit = .ok 0) ∧
      (∀ m, w.openR = .error (.exc m) →
        stdoutOf (run w) = ["TOML error: " ++ m] ∧ (run w).exit = .ok 0) := by
  constructor
  · intro bytes e hopen hdec herr
    obtain ⟨te, rfl⟩ := tomllib_err_shape bytes e herr
    rw [← hdec] at herr
    refine ⟨te.message, ?_, ?_⟩
    · cases te <;> decide
    · simp [run, hopen, herr, handle, stdoutOf]
  · intro m hopen
    simp [run, hopen, handle, stdoutOf]

theorem validate_toml_error_line_format_witness :
    (∃ m, m ≠ "" ∧
        stdoutOf (run ⟨.ok unterminatedBytes, tomllib_load, [], []⟩) =
          ["TOML error: " ++ m] ∧
        (run ⟨.ok unterminatedBytes, tomllib_load, [], []⟩).exit = .ok 0) ∧
      (stdoutOf (run ⟨.error (.exc "No such file or directory: surgical.toml"),
            tomllib_load, [], []⟩) =
          ["TOML error: " ++ "No such file or directory: surgical.toml"] ∧
        (run ⟨.error (.exc "No such file or directory: surgical.toml"),
            tomllib_load, [], []⟩).exit = .ok 0) :=
  ⟨(validate_toml_error_line_format ⟨.ok unterminatedBytes, tomllib_load, [], []⟩).1
      unterminatedBytes (.exc "Unterminated string") rfl rfl rfl,
    (validate_toml_error_line_format
        ⟨.error (.exc "No such file or directory: surgical.toml"), tomllib_load, [], []⟩).2
      "No such file or directory: surgical.toml" rfl⟩

/-- Claim C5: the empty (zero-byte) file is a valid TOML document with no
keys for the (spec-modelled) decoder, so the invocation prints
`TOML is valid` and exits 0. -/
theorem validate_toml_empty_file_valid (w : World)
    (hopen : w.openR = .ok []) (hdec : w.decode = tomllib_load) :
    stdoutOf (run w) = ["TOML is valid"] ∧ (run w).exit = .ok 0 := by
  have hd : w.decode [] = .ok () := by rw [hdec]; rfl
  simp [run, hopen, hd, stdoutOf]

theorem validate_toml_empty_file_valid_witness :
    stdoutOf (run ⟨.ok [], tomllib_load, [], []⟩) = ["TOML is valid"] ∧
      (run ⟨.ok [], tomllib_load, [], []⟩).exit = .ok 0 :=
  validate_toml_empty_file_valid ⟨.ok [], tomllib_load, [], []⟩ rfl rfl

/-- Claim C6: the outcome of an invocation is a function of the opened
file's contents (the open result) and the decoder's behaviour alone — two
invocations agreeing on those, whatever their argv and environment,
produce identical outcomes, so two successive runs over the same
unmodified file print the same output. -/
theorem validate_toml_deterministic (w₁ w₂ : World)
    (hfile : w₁.openR = w₂.openR) (hdec : w₁.decode = w₂.decode) :
    run w₁ = run w₂ := by
  unfold run
  rw [hfile, hdec]

theorem validate_toml_deterministic_witness :
    run ⟨.ok validBytes, tomllib_load, ["validate_toml.py"], [("HOME", "/root")]⟩ =
      run ⟨.ok validBytes, tomllib_load, [], []⟩ :=
  validate_toml_deterministic
    ⟨.ok validBytes, tomllib_load, ["validate_toml.py"], [("HOME", "/root")]⟩
    ⟨.ok validBytes, tomllib_load, [], []⟩ rfl rfl

/-- An effect is benign when it is not a file-system write: opening and
closing the read handle, or printing a line to the console. -/
def benign : Effect → Bool
  | .write => false
  | _ => true

/-- Claim C7: no invocation performs a write — every effect in every
trace is the read-handle open, the read-handle close, or a console
print; in particular `Effect.write` never occurs, so the file is left
unmodified. -/
theorem validate_toml_no_writes (w : World) :
    ((run w).trace.all benign) = true ∧ Effect.write ∉ (run w).trace := by
  rcases ho : w.openR with (m | m) | bytes
  · simp [run, ho, handle, benign]
  · simp [run, ho, handle, benign]
  · rcases hd : w.decode bytes with (m | m) | u <;>
      simp [run, ho, hd, handle, benign]

/-- Claim C8: whenever the fixed file is successfully opened, the trace
releases the handle right after the read on every exit path — the trace
extends `openF :: closeF :: _` whether decoding succeeded, raised a
caught exception, or raised an uncaught `BaseException`. -/
theorem validate_toml_handle_closed (w : World)
    (h : Effect.openF ∈ (run w).trace) :
    ∃ rest, (run w).trace = Effect.openF :: Effect.closeF :: rest := by
  rcases ho : w.openR with (m | m) | bytes
  · rw [run] at h
    rw [ho] at h
    simp [handle] at h
  · rw [run] at h
    rw [ho] at h
    simp [handle] at h
  · rcases hd : w.decode bytes with (m | m) | u
    · refine ⟨[.console ("TOML error: " ++ m)], ?_⟩
      simp [run, ho, hd, handle]
    · refine ⟨[], ?_⟩
      simp [run, ho, hd, handle]
    · refine ⟨[.console "TOML is valid"], ?_⟩
      simp [run, ho, hd]

theorem validate_toml_handle_closed_witness :
    ∃ rest, (run ⟨.ok validBytes, tomllib_load, [], []⟩).trace =
      Effect.openF :: Effect.closeF :: rest :=
  validate_toml_handle_closed ⟨.ok validBytes, tomllib_load, [], []⟩ (by decide)

/-- Claim C9: bytes that are not valid UTF-8 make the (spec-modelled)
decoder raise an `Exception`-subtree error like any other decode failure,
so the invocation prints a `TOML error: <message>` line and exits 0
instead of crashing. -/
theorem validate_toml_non_utf8_reported (w : World) (bytes : List Nat)
    (hopen : w.openR = .ok bytes) (hdec : w.decode = tomllib_load)
    (hbad : utf8Decode bytes = none) :
    stdoutOf (run w) = ["TOML error: " ++ TomlErr.invalidUtf8.message] ∧
      (run w).exit = .ok 0 := by
  have hd : w.decode bytes = .error (.exc TomlErr.invalidUtf8.message) := by
    rw [hdec]
    unfold tomllib_load
    rw [hbad]
  simp [run, hopen, hd, handle, stdoutOf]

theorem validate_toml_non_utf8_reported_witness :
    stdoutOf (run ⟨.ok nonUtf8Bytes, tomllib_load, [], []⟩) =
        ["TOML error: " ++ TomlErr.invalidUtf8.message] ∧
      (run ⟨.ok nonUtf8Bytes, tomllib_load, [], []⟩).exit = .ok 0 :=
  validate_toml_non_utf8_reported ⟨.ok nonUtf8Bytes, tomllib_load, [], []⟩
    nonUtf8Bytes rfl rfl rfl

/-- Claim C10: an exception deriving only from `BaseException` raised
during open or decode is not caught by the `except Exception` clause: it
propagates out as the exit condition, and no error line is printed —
"errors are reported, not raised" holds exactly for the `Exception`
subtree. -/
theorem validate_toml_base_exception_propagates (w : World) (m : String)
    (h : w.openR = .error (.base m) ∨
      ∃ bytes, w.openR = .ok bytes ∧ w.decode bytes = .error (.base m)) :
    (run w).exit = .error (.base m) ∧ stdoutOf (run w) = [] := by
  rcases h with h | ⟨bytes, h1, h2⟩
  · simp [run, h, handle, stdoutOf]
  · simp [run, h1, h2, handle, stdoutOf]

theorem validate_toml_base_exception_propagates_witness :
    (run ⟨.ok [], fun _ => .error (.base "SystemExit"), [], []⟩).exit =
        .error (.base "SystemExit") ∧
      stdoutOf (run ⟨.ok [], fun _ => .error (.base "SystemExit"), [], []⟩) = [] :=
  validate_toml_base_exception_propagates
    ⟨.ok [], fun _ => .error (.base "SystemExit"), [], []⟩ "SystemExit"
    (Or.inr ⟨[], rfl, rfl⟩)
